import Mathlib

/-!
# Verification of the multi-agent communication server's request-file protocol

Shallow embedding of `src/multi_agent_comm_server.py`: the JSON data model,
the storage accessor (`read_json_file`, `write_json_file`), the filename
sanitizer inside `create_associated_file`, and the six protocol operations
(`check_for_new_requests`, `get_request_summary`, `get_request_details`,
`update_request_status`, `add_answer_to_request`, `create_associated_file`).

Modelling conventions:
* JSON values are the inductive `Json`; Python dicts become association
  lists with unique keys in insertion order, Python `None` is `Json.null`,
  and JSON numbers are embedded as integers (no claim involves floats).
* A file on disk is an `Option FileData`: `none` models an absent file,
  `FileData.malformed` a file whose bytes fail `json.load` (or cannot be
  opened), and `FileData.parsed j` a file whose bytes parse to `j`.
  `json.dump`/`json.load` round-trip exactly on this fragment, so
  serialization is modelled as the identity on parsed values.
* The current UTC timestamp (`get_current_timestamp`) is passed in as an
  explicit `now : String` parameter.
* OS-level write failures are not modelled: `write_json_file` succeeds, so
  the `ToolErr.writeFailed` branch of the Python code is never produced.
* A Python exception that escapes the handler uncaught (e.g. the
  `AttributeError`/`TypeError` raised when a truthy non-dict document is
  subscripted or `.get`-accessed) is modelled as `ToolErr.uncaughtException`.
-/

/-- JSON values as parsed by Python's `json.load`: objects are association
lists in insertion order (Python dicts), numbers are embedded as integers. -/
inductive Json where
  | null
  | bool (b : Bool)
  | num (n : Int)
  | str (s : String)
  | arr (elems : List Json)
  | obj (fields : List (String × Json))
deriving Repr, Inhabited

/-- Python truthiness (`if data:`) of a JSON value: `None`, `False`, `0`,
`""`, `[]` and `{}` are falsy, everything else truthy. -/
def truthy : Json → Bool
  | .null => false
  | .bool b => b
  | .num n => n != 0
  | .str s => s != ""
  | .arr elems => !elems.isEmpty
  | .obj fields => !fields.isEmpty

/-- Python `data[k] = v` on a dict: replace the binding for `k` in place
(keeping its position) if present, otherwise append a new binding. -/
def setKey : List (String × Json) → String → Json → List (String × Json)
  | [], k, v => [(k, v)]
  | (k', v') :: rest, k, v =>
      if k' = k then (k, v) :: rest else (k', v') :: setKey rest k v

/-- Python `data.get(k)` on a dict: the bound value, or `None` when absent. -/
def pyGet (fields : List (String × Json)) (k : String) : Json :=
  (fields.lookup k).getD .null

/-- Field lookup on a JSON value: `none` unless it is an object binding `k`. -/
def Json.getKey : Json → String → Option Json
  | .obj fields, k => fields.lookup k
  | _, _ => none

/-- Python `v is None` for a parsed JSON value. -/
def Json.isNull : Json → Bool
  | .null => true
  | _ => false

/-- Content of an existing file as seen through `json.load`. -/
inductive FileData where
  | malformed
  | parsed (j : Json)
deriving Repr, Inhabited

/-- Lines 42-58, `read_json_file`: parses a JSON file, returning `None`
(here `none`) when the file is absent, unreadable, or not valid JSON. -/
def read_json_file : Option FileData → Option Json
  | some (.parsed j) => some j
  | some .malformed => none
  | none => none

/-- Lines 60-71, `write_json_file`: serializes the full document with
`json.dump` and overwrites the file.  Serialization is faithful on the
embedded fragment, so the stored content is the parsed document itself. -/
def write_json_file (data : Json) : FileData :=
  .parsed data

/-- Typed failures: the `ToolError`s raised by the handlers, plus
`uncaughtException` for Python exceptions that escape the handler. -/
inductive ToolErr where
  | fileNotFound
  | readParseFailed
  | questionNotFound
  | writeFailed
  | scanFailed
  | uncaughtException
deriving Repr, DecidableEq

/-- Line 87, `UpdateStatusInput.new_status : Literal["answered", "partial",
"error"]`.  `partialStatus`/`errorStatus` render as `"partial"`/`"error"`. -/
inductive NewStatus where
  | answered
  | partialStatus
  | errorStatus
deriving Repr, DecidableEq

/-- The string value carried by a `new_status` literal. -/
def NewStatus.toStr : NewStatus → String
  | .answered => "answered"
  | .partialStatus => "partial"
  | .errorStatus => "error"

/-- Truthiness of the optional `error_message` field (`if input.error_message:`):
falsy when `None` or the empty string. -/
def msgTruthy : Option String → Bool
  | none => false
  | some m => m != ""

/-- Line 114's `comm_dir.glob('*.json')` filter: the entry name ends with
`".json"` (fnmatch lets `*` match the empty string, so `.json` itself
matches too). -/
def matchesGlobJson (name : String) : Bool :=
  List.isSuffixOf ".json".data name.data

/-- One directory entry seen by `comm_dir.glob`: its name, whether it is a
regular file (`item.is_file()`), and its content. -/
structure DirEntry where
  name : String
  is_file : Bool
  content : FileData
deriving Repr

/-- Lines 106-128, `check_for_new_requests`: for each `*.json` regular file,
try to parse it; open/parse failures are logged and skipped; a file parsing
to a truthy value with `status == "pending"` is collected.  A truthy
non-dict value makes `data.get` raise `AttributeError`, which is not in the
inner `except` tuple, so it aborts the whole scan via the outer
`except Exception` (→ `ToolError`, here `scanFailed`).  Returned paths are
the entry names, in directory order. -/
def check_for_new_requests : List DirEntry → Except ToolErr (List String)
  | [] => .ok []
  | e :: rest =>
      if matchesGlobJson e.name && e.is_file then
        match e.content with
        | .malformed => check_for_new_requests rest
        | .parsed data =>
            if truthy data then
              match data with
              | .obj fields =>
                  match fields.lookup "status" with
                  | some (.str s) =>
                      if s = "pending" then
                        (check_for_new_requests rest).map (e.name :: ·)
                      else check_for_new_requests rest
                  | _ => check_for_new_requests rest
              | _ => .error .scanFailed
            else check_for_new_requests rest
      else check_for_new_requests rest

/-- Line 144, the projection of one well-formed question entry:
`{"question_id": q.get("question_id"), "text": q.get("text")}`. -/
def projQuestion (q : List (String × Json)) : Json :=
  .obj [("question_id", pyGet q "question_id"), ("text", pyGet q "text")]

/-- Python `data.get("questions", [])`: the bound value if the key is
present (even when bound to `null`), else the empty list. -/
def questionsOrEmpty (fields : List (String × Json)) : Json :=
  match fields.lookup "questions" with
  | some v => v
  | none => .arr []

/-- Python `for q in v ... if isinstance(q, dict)`: the dict elements of an
iterable value, `none` when `v` is not iterable (`TypeError`).  Iterating a
string yields one-character strings and iterating a dict yields its string
keys, so neither contributes any dict. -/
def iterDicts : Json → Option (List (List (String × Json)))
  | .arr elems => some (elems.filterMap fun q =>
      match q with
      | .obj fields => some fields
      | _ => none)
  | .str _ => some []
  | .obj _ => some []
  | _ => none

/-- Lines 130-151, `get_request_summary`: after the existence, parse and
truthiness checks, builds `{task_id, questions, desired_output}` and drops
the entries whose value is `None` (`if v is not None`).  On a truthy
non-dict document the `data.get` calls raise `AttributeError` (uncaught). -/
def get_request_summary (file : Option FileData) : Except ToolErr Json :=
  match file with
  | none => .error .fileNotFound
  | some fd =>
      match read_json_file (some fd) with
      | none => .error .readParseFailed
      | some data =>
          if truthy data then
            match data with
            | .obj fields =>
                match iterDicts (questionsOrEmpty fields) with
                | none => .error .uncaughtException
                | some qdicts =>
                    let summary : List (String × Json) :=
                      [("task_id", pyGet fields "task_id"),
                       ("questions", .arr (qdicts.map projQuestion)),
                       ("desired_output", pyGet fields "desired_output")]
                    .ok (.obj (summary.filter fun p => !(p.2.isNull)))
            | _ => .error .uncaughtException
          else .error .readParseFailed

/-- Lines 153-165, `get_request_details`: same checks, then returns the
parsed document unmodified.  (The log call on line 164 invokes
`data.get('task_id')`, so a truthy non-dict document raises
`AttributeError` before the handler returns.) -/
def get_request_details (file : Option FileData) : Except ToolErr Json :=
  match file with
  | none => .error .fileNotFound
  | some fd =>
      match read_json_file (some fd) with
      | none => .error .readParseFailed
      | some data =>
          if truthy data then
            match data with
            | .obj _ => .ok data
            | _ => .error .uncaughtException
          else .error .readParseFailed

/-- Lines 167-186, `update_request_status`: after the checks, sets
`data["status"] = new_status`, stamps `data["response_timestamp"] = now`,
and, only when `new_status == "error"` and `error_message` is truthy
(non-`None` and non-empty), sets `data["error_details"]`.  The written
document is returned (`write_json_file` succeeds in this model).  Item
assignment on a truthy non-dict raises `TypeError` (uncaught). -/
def update_request_status (file : Option FileData) (new_status : NewStatus)
    (error_message : Option String) (now : String) : Except ToolErr Json :=
  match file with
  | none => .error .fileNotFound
  | some fd =>
      match read_json_file (some fd) with
      | none => .error .readParseFailed
      | some data =>
          if truthy data then
            match data with
            | .obj fields =>
                let fields1 := setKey fields "status" (.str new_status.toStr)
                let fields2 := setKey fields1 "response_timestamp" (.str now)
                let fields3 :=
                  if new_status = .errorStatus then
                    match error_message with
                    | some m =>
                        if m = "" then fields2
                        else setKey fields2 "error_details" (.str m)
                    | none => fields2
                  else fields2
                .ok (.obj fields3)
            | _ => .error .uncaughtException
          else .error .readParseFailed

/-- Line 202's match test: `isinstance(question, dict) and
question.get("question_id") == input.question_id`. -/
def qMatches (q : Json) (question_id : String) : Bool :=
  match q with
  | .obj fields =>
      match fields.lookup "question_id" with
      | some (.str s) => s == question_id
      | _ => false
  | _ => false

/-- Line 203, `question["answer"] = input.answer` on a matching (dict)
entry; non-dict values are left unchanged (the loop never answers them). -/
def setAnswer (q : Json) (answer : Json) : Json :=
  match q with
  | .obj fields => .obj (setKey fields "answer" answer)
  | _ => q

/-- Lines 201-205, the `for question in data["questions"]` loop: answer the
first matching entry and stop (`break`); `none` when no entry matches
(`updated` stays `False`). -/
def answerLoop (question_id : String) (answer : Json) :
    List Json → Option (List Json)
  | [] => none
  | q :: rest =>
      if qMatches q question_id then some (setAnswer q answer :: rest)
      else (answerLoop question_id answer rest).map (q :: ·)

/-- Python `"questions" in s` for a string `s`: substring containment. -/
def strContainsQuestions (s : String) : Bool :=
  (s.splitOn "questions").length != 1

/-- Lines 188-213, `add_answer_to_request`: after the checks, scans
`data["questions"]` (when present and a list) for the first entry matching
`question_id`; if none matches, raises `ToolError` before any write; on
success stamps `response_timestamp` and writes the full document back.
On a truthy non-dict document, `"questions" in data` either raises
`TypeError` (numbers, booleans) or, for lists/strings, succeeds as
membership/substring test — a positive test then makes `data["questions"]`
raise `TypeError`, a negative one falls through to the not-found error. -/
def add_answer_to_request (file : Option FileData) (question_id : String)
    (answer : Json) (now : String) : Except ToolErr Json :=
  match file with
  | none => .error .fileNotFound
  | some fd =>
      match read_json_file (some fd) with
      | none => .error .readParseFailed
      | some data =>
          if truthy data then
            match data with
            | .obj fields =>
                match fields.lookup "questions" with
                | some (.arr qs) =>
                    match answerLoop question_id answer qs with
                    | some qs2 =>
                        let fields1 := setKey fields "questions" (.arr qs2)
                        let fields2 :=
                          setKey fields1 "response_timestamp" (.str now)
                        .ok (.obj fields2)
                    | none => .error .questionNotFound
                | some _ => .error .questionNotFound
                | none => .error .questionNotFound
            | .arr elems =>
                if elems.any fun x =>
                    match x with
                    | .str s => s == "questions"
                    | _ => false then
                  .error .uncaughtException
                else .error .questionNotFound
            | .str s =>
                if strContainsQuestions s then .error .uncaughtException
                else .error .questionNotFound
            | _ => .error .uncaughtException
          else .error .readParseFailed

/-- The file content after a read-modify-write operation: the written
document when the operation succeeded, the untouched original otherwise
(every `ToolError` in the source is raised before the write). -/
def runFileOp (file : Option FileData) (r : Except ToolErr Json) :
    Option FileData :=
  match r with
  | .ok d => some (write_json_file d)
  | .error _ => file

/-- Line 221's keep-test for task-id characters:
`c.isalnum() or c in ('-', '_')`.  (Python's `str.isalnum` also accepts
non-ASCII alphanumerics; the embedding uses ASCII `Char.isAlphanum`, which
agrees on every character the sanitization guarantees are about.) -/
def isSafeTaskChar (c : Char) : Bool :=
  c.isAlphanum || c = '-' || c = '_'

/-- Line 222's keep-test for suffix characters, additionally allowing `.`. -/
def isSafeSuffixChar (c : Char) : Bool :=
  c.isAlphanum || c = '-' || c = '_' || c = '.'

/-- Line 223's strip-set: `lstrip('./\\')` removes these leading chars. -/
def isStrippedChar (c : Char) : Bool :=
  c = '.' || c = '/' || c = '\\'

/-- Line 221: `safe_task_id`, keeping alphanumerics, `-` and `_`, replacing
every other character with `_`. -/
def safe_task_id (task_id : String) : String :=
  .mk (task_id.data.map fun c => if isSafeTaskChar c then c else '_')

/-- Lines 222-225: `safe_suffix`: sanitize keeping `.` as well, then strip
leading `.`, `/`, `\`, then the `_file` default when the result is empty. -/
def safe_suffix (filename_suffix : String) : String :=
  let s : String :=
    .mk (filename_suffix.data.map fun c => if isSafeSuffixChar c then c else '_')
  let s : String := .mk (s.data.dropWhile isStrippedChar)
  if s = "" then "_file" else s

/-- Line 226, `filename = f"{safe_task_id}{safe_suffix}"`, the name of the
associated file created inside the communication directory. -/
def create_associated_filename (task_id filename_suffix : String) : String :=
  safe_task_id task_id ++ safe_suffix filename_suffix

/-- Line 119's inclusion test on a parsed dict:
`data.get("status") == "pending"`. -/
def pendingStatus (fields : List (String × Json)) : Bool :=
  match fields.lookup "status" with
  | some (.str s) => s == "pending"
  | _ => false

/-- A directory entry the scan includes: a `*.json` regular file whose
content parses to a truthy dict with `status == "pending"`. -/
def isPendingFile (e : DirEntry) : Bool :=
  (matchesGlobJson e.name && e.is_file) &&
    (match e.content with
     | .parsed j =>
         truthy j &&
           (match j with
            | .obj fields => pendingStatus fields
            | _ => false)
     | .malformed => false)

/-- A directory entry the scan can process without aborting: either it is
not a scanned `*.json` regular file, or its content is malformed (skipped),
falsy (skipped), or a dict.  A truthy non-dict `*.json` file is the one
shape that aborts the whole scan (uncaught `AttributeError` on line 119). -/
def scanEntryOk (e : DirEntry) : Bool :=
  !(matchesGlobJson e.name && e.is_file) ||
    (match e.content with
     | .parsed (.obj _) => true
     | .parsed j => !(truthy j)
     | .malformed => true)

/-- The C7 invariant: `error_details` is present only when `status` is
`"error"`. -/
def errorDetailsInvariant (j : Json) : Prop :=
  (Json.getKey j "error_details").isSome = true →
    Json.getKey j "status" = some (.str "error")

/-- No entry of the document's questions list matches `question_id`: when
`"questions"` is bound to a list, no element passes the line-202 test; when
it is absent or not a list the condition holds vacuously (the loop body is
never entered, exactly as on lines 200-205). -/
def noMatchingQuestion (fields : List (String × Json))
    (question_id : String) : Bool :=
  match fields.lookup "questions" with
  | some (.arr qs) => qs.all fun q => !(qMatches q question_id)
  | _ => true

/-! ## Helper lemmas about dict updates and the answer loop -/

theorem lookup_setKey_self (fs : List (String × Json)) (k : String) (v : Json) :
    (setKey fs k v).lookup k = some v := by
  induction fs with
  | nil => simp [setKey, List.lookup]
  | cons p rest ih =>
      obtain ⟨k', v'⟩ := p
      by_cases h : k' = k
      · subst h
        simp [setKey, List.lookup]
      · have hb : (k == k') = false := beq_eq_false_iff_ne.mpr (Ne.symm h)
        simp [setKey, h, List.lookup, hb, ih]

theorem lookup_setKey_ne (fs : List (String × Json)) (k k' : String) (v : Json)
    (h : k' ≠ k) : (setKey fs k v).lookup k' = fs.lookup k' := by
  have hb : (k' == k) = false := beq_eq_false_iff_ne.mpr h
  induction fs with
  | nil => simp [setKey, List.lookup, hb]
  | cons p rest ih =>
      obtain ⟨k₀, v₀⟩ := p
      by_cases h0 : k₀ = k
      · subst h0
        simp [setKey, List.lookup, hb]
      · by_cases h1 : k' = k₀
        · subst h1
          simp [setKey, h0, List.lookup]
        · have hb1 : (k' == k₀) = false := beq_eq_false_iff_ne.mpr h1
          simp [setKey, h0, List.lookup, hb1, ih]

theorem answerLoop_of_noMatch (question_id : String) (answer : Json)
    (qs : List Json) (h : qs.all (fun q => !(qMatches q question_id)) = true) :
    answerLoop question_id answer qs = none := by
  induction qs with
  | nil => rfl
  | cons q rest ih =>
      simp only [List.all_cons, Bool.and_eq_true, Bool.not_eq_true'] at h
      simp [answerLoop, h.1, ih (by simpa using h.2)]

theorem answerLoop_first (question_id : String) (answer : Json)
    (pre post : List Json) (q : Json)
    (hpre : pre.all (fun p => !(qMatches p question_id)) = true)
    (hq : qMatches q question_id = true) :
    answerLoop question_id answer (pre ++ q :: post) =
      some (pre ++ setAnswer q answer :: post) := by
  induction pre with
  | nil => simp [answerLoop, hq]
  | cons p rest ih =>
      simp only [List.all_cons, Bool.and_eq_true, Bool.not_eq_true'] at hpre
      simp [answerLoop, hpre.1, ih (by simpa using hpre.2)]

theorem head_dropWhile_false {α : Type} (p : α → Bool) (l : List α) (c : α)
    (h : (l.dropWhile p).head? = some c) : p c = false := by
  induction l with
  | nil => simp [List.dropWhile] at h
  | cons x rest ih =>
      by_cases hx : p x = true
      · exact ih (by simpa [List.dropWhile, hx] using h)
      · rw [List.dropWhile_cons_of_neg hx] at h
        simp at h
        subst h
        simpa using hx

theorem mem_safe_task_id (task_id : String) (c : Char)
    (h : c ∈ (safe_task_id task_id).data) : isSafeTaskChar c = true := by
  unfold safe_task_id at h
  obtain ⟨a, _, rfl⟩ := List.mem_map.mp h
  by_cases ha : isSafeTaskChar a = true
  · rw [if_pos ha]
    exact ha
  · rw [if_neg ha]
    decide

theorem mem_safe_suffix (filename_suffix : String) (c : Char)
    (h : c ∈ (safe_suffix filename_suffix).data) :
    isSafeSuffixChar c = true := by
  unfold safe_suffix at h
  dsimp only at h
  split at h
  · fin_cases h <;> decide
  · have h2 := (List.dropWhile_sublist isStrippedChar).subset h
    obtain ⟨a, _, rfl⟩ := List.mem_map.mp h2
    by_cases ha : isSafeSuffixChar a = true
    · rw [if_pos ha]
      exact ha
    · rw [if_neg ha]
      decide

theorem safe_suffix_ne_nil (filename_suffix : String) :
    (safe_suffix filename_suffix).data ≠ [] := by
  unfold safe_suffix
  dsimp only
  split
  · decide
  · rename_i hne
    intro hdata
    exact hne (String.ext hdata)

theorem head_safe_suffix_not_stripped (filename_suffix : String) (c : Char)
    (h : (safe_suffix filename_suffix).data.head? = some c) :
    isStrippedChar c = false := by
  unfold safe_suffix at h
  dsimp only at h
  split at h
  · have := Option.some.inj h
    subst this
    decide
  · exact head_dropWhile_false _ _ _ h

theorem isSafeTaskChar_no_sep {c : Char} (h : isSafeTaskChar c = true) :
    c ≠ '/' ∧ c ≠ '\\' :=
  ⟨fun e => by subst e; exact absurd h (by decide),
   fun e => by subst e; exact absurd h (by decide)⟩

theorem isSafeSuffixChar_no_sep {c : Char} (h : isSafeSuffixChar c = true) :
    c ≠ '/' ∧ c ≠ '\\' :=
  ⟨fun e => by subst e; exact absurd h (by decide),
   fun e => by subst e; exact absurd h (by decide)⟩

theorem add_answer_ok_shape
    (fields : List (String × Json)) (question_id : String) (answer : Json)
    (now : String) (d : Json)
    (hok : add_answer_to_request (some (.parsed (.obj fields))) question_id
      answer now = .ok d) :
    ∃ qs qs2, fields.lookup "questions" = some (.arr qs) ∧
      answerLoop question_id answer qs = some qs2 ∧
      d = .obj (setKey (setKey fields "questions" (.arr qs2))
        "response_timestamp" (.str now)) := by
  cases htr : truthy (.obj fields) with
  | false => simp [add_answer_to_request, read_json_file, htr] at hok
  | true =>
      cases hq : fields.lookup "questions" with
      | none => simp [add_answer_to_request, read_json_file, htr, hq] at hok
      | some v =>
          cases v with
          | arr qs =>
              cases hl : answerLoop question_id answer qs with
              | none =>
                  simp [add_answer_to_request, read_json_file, htr, hq, hl]
                    at hok
              | some qs2 =>
                  refine ⟨qs, qs2, rfl, hl, ?_⟩
                  simp [add_answer_to_request, read_json_file, htr, hq, hl]
                    at hok
                  exact hok.symm
          | null => simp [add_answer_to_request, read_json_file, htr, hq] at hok
          | bool b =>
              simp [add_answer_to_request, read_json_file, htr, hq] at hok
          | num n => simp [add_answer_to_request, read_json_file, htr, hq] at hok
          | str s => simp [add_answer_to_request, read_json_file, htr, hq] at hok
          | obj g => simp [add_answer_to_request, read_json_file, htr, hq] at hok

/-! ## Claim theorems -/

/-- C1: for every readable document and every questionId, if no entry of the
document's questions list has `question_id` equal to `questionId`, then
add-answer fails with the question-not-found `ToolError` and performs no
write, leaving the stored file content unchanged. -/
theorem claim_C1_add_answer_no_match_fails_no_write
    (fields : List (String × Json)) (question_id : String) (answer : Json)
    (now : String)
    (htr : truthy (.obj fields) = true)
    (hnm : noMatchingQuestion fields question_id = true) :
    add_answer_to_request (some (.parsed (.obj fields))) question_id answer now
      = .error .questionNotFound ∧
    runFileOp (some (.parsed (.obj fields)))
      (add_answer_to_request (some (.parsed (.obj fields))) question_id answer
        now)
      = some (.parsed (.obj fields)) := by
  have hmain : add_answer_to_request (some (.parsed (.obj fields)))
      question_id answer now = .error .questionNotFound := by
    cases hq : fields.lookup "questions" with
    | none => simp [add_answer_to_request, read_json_file, htr, hq]
    | some v =>
        cases v with
        | arr qs =>
            have hall : qs.all (fun q => !(qMatches q question_id)) = true := by
              unfold noMatchingQuestion at hnm
              rw [hq] at hnm
              exact hnm
            simp [add_answer_to_request, read_json_file, htr, hq,
              answerLoop_of_noMatch _ _ _ hall]
        | null => simp [add_answer_to_request, read_json_file, htr, hq]
        | bool b => simp [add_answer_to_request, read_json_file, htr, hq]
        | num n => simp [add_answer_to_request, read_json_file, htr, hq]
        | str s => simp [add_answer_to_request, read_json_file, htr, hq]
        | obj g => simp [add_answer_to_request, read_json_file, htr, hq]
  exact ⟨hmain, by rw [hmain]; rfl⟩

/-- C1 witness: a concrete pending document with one question `q1`; asking
to answer `q2` fails and leaves the file unchanged. -/
theorem claim_C1_witness :
    add_answer_to_request
      (some (.parsed (.obj [("task_id", .str "t1"),
        ("status", .str "pending"),
        ("questions", .arr [.obj [("question_id", .str "q1"),
          ("text", .str "Why")]])])))
      "q2" (.obj [("response_text", .str "because")]) "2024-01-01T00:00:00+00:00"
      = .error .questionNotFound ∧
    runFileOp
      (some (.parsed (.obj [("task_id", .str "t1"),
        ("status", .str "pending"),
        ("questions", .arr [.obj [("question_id", .str "q1"),
          ("text", .str "Why")]])])))
      (add_answer_to_request
        (some (.parsed (.obj [("task_id", .str "t1"),
          ("status", .str "pending"),
          ("questions", .arr [.obj [("question_id", .str "q1"),
            ("text", .str "Why")]])])))
        "q2" (.obj [("response_text", .str "because")])
        "2024-01-01T00:00:00+00:00")
      = some (.parsed (.obj [("task_id", .str "t1"),
        ("status", .str "pending"),
        ("questions", .arr [.obj [("question_id", .str "q1"),
          ("text", .str "Why")]])])) :=
  claim_C1_add_answer_no_match_fails_no_write
    [("task_id", .str "t1"), ("status", .str "pending"),
     ("questions", .arr [.obj [("question_id", .str "q1"),
       ("text", .str "Why")]])]
    "q2" (.obj [("response_text", .str "because")])
    "2024-01-01T00:00:00+00:00" rfl rfl

/-- C8: for every readable document whose questions list contains a matching
entry, add-answer sets the `answer` field of the first matching entry (in
list order) to the supplied answer object verbatim, leaves all other
question entries unchanged, stamps `response_timestamp`, and writes the
full document back (all other top-level fields unchanged). -/
theorem claim_C8_add_answer_first_match
    (fields : List (String × Json)) (question_id : String) (answer : Json)
    (now : String) (pre post : List Json) (q : Json)
    (htr : truthy (.obj fields) = true)
    (hqs : fields.lookup "questions" = some (.arr (pre ++ q :: post)))
    (hpre : pre.all (fun p => !(qMatches p question_id)) = true)
    (hq : qMatches q question_id = true) :
    ∃ fields2,
      add_answer_to_request (some (.parsed (.obj fields))) question_id answer
        now = .ok (.obj fields2) ∧
      fields2.lookup "questions"
        = some (.arr (pre ++ setAnswer q answer :: post)) ∧
      fields2.lookup "response_timestamp" = some (.str now) ∧
      Json.getKey (setAnswer q answer) "answer" = some answer ∧
      (∀ k, k ≠ "questions" → k ≠ "response_timestamp" →
        fields2.lookup k = fields.lookup k) := by
  refine ⟨setKey (setKey fields "questions"
      (.arr (pre ++ setAnswer q answer :: post))) "response_timestamp"
      (.str now), ?_, ?_, ?_, ?_, ?_⟩
  · simp [add_answer_to_request, read_json_file, htr, hqs,
      answerLoop_first _ _ _ _ _ hpre hq]
  · rw [lookup_setKey_ne _ _ _ _ (by decide)]
    exact lookup_setKey_self _ _ _
  · exact lookup_setKey_self _ _ _
  · cases q with
    | obj g => simp [setAnswer, Json.getKey, lookup_setKey_self]
    | null => simp [qMatches] at hq
    | bool b => simp [qMatches] at hq
    | num n => simp [qMatches] at hq
    | str s => simp [qMatches] at hq
    | arr elems => simp [qMatches] at hq
  · intro k h1 h2
    rw [lookup_setKey_ne _ _ _ _ h2, lookup_setKey_ne _ _ _ _ h1]

/-- C8 witness: answering `q1` in the scenario document of spec §8 updates
the first (only) question, stamps the timestamp, and rewrites the file. -/
theorem claim_C8_witness :
    ∃ fields2,
      add_answer_to_request
        (some (.parsed (.obj [("task_id", .str "t1"),
          ("status", .str "pending"),
          ("questions", .arr [.obj [("question_id", .str "q1"),
            ("text", .str "Why")]])])))
        "q1" (.obj [("response_text", .str "because")])
        "2024-01-01T00:00:00+00:00" = .ok (.obj fields2) ∧
      fields2.lookup "questions"
        = some (.arr ([] ++ setAnswer
            (.obj [("question_id", .str "q1"), ("text", .str "Why")])
            (.obj [("response_text", .str "because")]) :: [])) ∧
      fields2.lookup "response_timestamp"
        = some (.str "2024-01-01T00:00:00+00:00") ∧
      Json.getKey (setAnswer
          (.obj [("question_id", .str "q1"), ("text", .str "Why")])
          (.obj [("response_text", .str "because")])) "answer"
        = some (.obj [("response_text", .str "because")]) ∧
      (∀ k, k ≠ "questions" → k ≠ "response_timestamp" →
        fields2.lookup k
          = ([("task_id", Json.str "t1"), ("status", Json.str "pending"),
              ("questions", Json.arr [.obj [("question_id", .str "q1"),
                ("text", .str "Why")]])]).lookup k) :=
  claim_C8_add_answer_first_match
    [("task_id", .str "t1"), ("status", .str "pending"),
     ("questions", .arr [.obj [("question_id", .str "q1"),
       ("text", .str "Why")]])]
    "q1" (.obj [("response_text", .str "because")])
    "2024-01-01T00:00:00+00:00" [] []
    (.obj [("question_id", .str "q1"), ("text", .str "Why")]) rfl rfl rfl rfl

/-- Behaviour of a successful `update_request_status` on a readable
document: shared specification lemma (names the fields it sets, the fields
it keeps, and the exact condition under which `error_details` is written). -/
theorem update_request_status_spec
    (fields : List (String × Json)) (new_status : NewStatus)
    (error_message : Option String) (now : String)
    (htr : truthy (.obj fields) = true) :
    ∃ out,
      update_request_status (some (.parsed (.obj fields))) new_status
        error_message now = .ok (.obj out) ∧
      out.lookup "status" = some (.str new_status.toStr) ∧
      out.lookup "response_timestamp" = some (.str now) ∧
      (∀ m, error_message = some m → m ≠ "" → new_status = .errorStatus →
        out.lookup "error_details" = some (.str m)) ∧
      (¬(new_status = .errorStatus ∧ msgTruthy error_message = true) →
        out.lookup "error_details" = fields.lookup "error_details") ∧
      (∀ k, k ≠ "status" → k ≠ "response_timestamp" → k ≠ "error_details" →
        out.lookup k = fields.lookup k) := by
  by_cases hns : new_status = .errorStatus
  · subst hns
    cases error_message with
    | none =>
        refine ⟨setKey (setKey fields "status" (.str NewStatus.errorStatus.toStr))
          "response_timestamp" (.str now), ?_, ?_, ?_, ?_, ?_, ?_⟩
        · simp [update_request_status, read_json_file, htr]
        · rw [lookup_setKey_ne _ _ _ _ (by decide)]
          exact lookup_setKey_self _ _ _
        · exact lookup_setKey_self _ _ _
        · intro m hm
          exact absurd hm (by simp)
        · intro _
          rw [lookup_setKey_ne _ _ _ _ (by decide),
            lookup_setKey_ne _ _ _ _ (by decide)]
        · intro k h1 h2 _
          rw [lookup_setKey_ne _ _ _ _ h2, lookup_setKey_ne _ _ _ _ h1]
    | some m =>
        by_cases hm : m = ""
        · subst hm
          refine ⟨setKey (setKey fields "status"
            (.str NewStatus.errorStatus.toStr)) "response_timestamp"
            (.str now), ?_, ?_, ?_, ?_, ?_, ?_⟩
          · simp [update_request_status, read_json_file, htr]
          · rw [lookup_setKey_ne _ _ _ _ (by decide)]
            exact lookup_setKey_self _ _ _
          · exact lookup_setKey_self _ _ _
          · intro m' hm' hne _
            cases hm'
            exact absurd rfl hne
          · intro _
            rw [lookup_setKey_ne _ _ _ _ (by decide),
              lookup_setKey_ne _ _ _ _ (by decide)]
          · intro k h1 h2 _
            rw [lookup_setKey_ne _ _ _ _ h2, lookup_setKey_ne _ _ _ _ h1]
        · refine ⟨setKey (setKey (setKey fields "status"
            (.str NewStatus.errorStatus.toStr)) "response_timestamp"
            (.str now)) "error_details" (.str m), ?_, ?_, ?_, ?_, ?_, ?_⟩
          · simp [update_request_status, read_json_file, htr, hm]
          · rw [lookup_setKey_ne _ _ _ _ (by decide),
              lookup_setKey_ne _ _ _ _ (by decide)]
            exact lookup_setKey_self _ _ _
          · rw [lookup_setKey_ne _ _ _ _ (by decide)]
            exact lookup_setKey_self _ _ _
          · intro m' hm' _ _
            cases hm'
            exact lookup_setKey_self _ _ _
          · intro hcon
            exact absurd ⟨rfl, by simp [msgTruthy, hm]⟩ hcon
          · intro k h1 h2 h3
            rw [lookup_setKey_ne _ _ _ _ h3, lookup_setKey_ne _ _ _ _ h2,
              lookup_setKey_ne _ _ _ _ h1]
  · refine ⟨setKey (setKey fields "status" (.str new_status.toStr))
      "response_timestamp" (.str now), ?_, ?_, ?_, ?_, ?_, ?_⟩
    · simp [update_request_status, read_json_file, htr, hns]
    · rw [lookup_setKey_ne _ _ _ _ (by decide)]
      exact lookup_setKey_self _ _ _
    · exact lookup_setKey_self _ _ _
    · intro m _ _ hns'
      exact absurd hns' hns
    · intro _
      rw [lookup_setKey_ne _ _ _ _ (by decide),
        lookup_setKey_ne _ _ _ _ (by decide)]
    · intro k h1 h2 _
      rw [lookup_setKey_ne _ _ _ _ h2, lookup_setKey_ne _ _ _ _ h1]

/-- C4 (amended): update-status on a readable document sets `status` and
stamps `response_timestamp`; it sets `error_details` to the message exactly
when the new status is error and the message is present **and non-empty**
(Python truthiness of the optional string), otherwise leaves any prior
`error_details` binding untouched; all other fields are unchanged. -/
theorem claim_C4_update_status_fields
    (fields : List (String × Json)) (new_status : NewStatus)
    (error_message : Option String) (now : String)
    (htr : truthy (.obj fields) = true) :
    ∃ out,
      update_request_status (some (.parsed (.obj fields))) new_status
        error_message now = .ok (.obj out) ∧
      out.lookup "status" = some (.str new_status.toStr) ∧
      out.lookup "response_timestamp" = some (.str now) ∧
      (∀ m, error_message = some m → m ≠ "" → new_status = .errorStatus →
        out.lookup "error_details" = some (.str m)) ∧
      (¬(new_status = .errorStatus ∧ msgTruthy error_message = true) →
        out.lookup "error_details" = fields.lookup "error_details") ∧
      (∀ k, k ≠ "status" → k ≠ "response_timestamp" → k ≠ "error_details" →
        out.lookup k = fields.lookup k) :=
  update_request_status_spec fields new_status error_message now htr

/-- C4 witness: the spec §8 status-stamping test:
`update-status(..., "error", "boom")` yields `status == "error"`,
`error_details == "boom"` and a fresh `response_timestamp`. -/
theorem claim_C4_witness :
    ∃ out,
      update_request_status
        (some (.parsed (.obj [("task_id", .str "t1"),
          ("status", .str "pending")])))
        .errorStatus (some "boom") "2024-01-01T00:00:00+00:00"
        = .ok (.obj out) ∧
      out.lookup "status" = some (.str NewStatus.errorStatus.toStr) ∧
      out.lookup "response_timestamp"
        = some (.str "2024-01-01T00:00:00+00:00") ∧
      (∀ m, (some "boom" : Option String) = some m → m ≠ "" →
        NewStatus.errorStatus = NewStatus.errorStatus →
        out.lookup "error_details" = some (.str m)) ∧
      (¬(NewStatus.errorStatus = NewStatus.errorStatus ∧
          msgTruthy (some "boom") = true) →
        out.lookup "error_details"
          = ([("task_id", Json.str "t1"),
              ("status", Json.str "pending")]).lookup "error_details") ∧
      (∀ k, k ≠ "status" → k ≠ "response_timestamp" → k ≠ "error_details" →
        out.lookup k
          = ([("task_id", Json.str "t1"),
              ("status", Json.str "pending")]).lookup k) :=
  claim_C4_update_status_fields
    [("task_id", .str "t1"), ("status", .str "pending")]
    .errorStatus (some "boom") "2024-01-01T00:00:00+00:00" rfl

/-- C4 counterexample: with `newStatus = error` and `errorMessage` present
but empty (`Some ""`), the claim as stated says `error_details` is set to
the message; the code's truthiness test skips the assignment, so the
written document carries no `error_details` binding at all. -/
theorem claim_C4_counterexample :
    update_request_status
      (some (.parsed (.obj [("task_id", .str "t1"),
        ("status", .str "pending")])))
      .errorStatus (some "") "2024-01-01T00:00:00+00:00"
      = .ok (.obj [("task_id", .str "t1"), ("status", .str "error"),
          ("response_timestamp", .str "2024-01-01T00:00:00+00:00")]) ∧
    (Json.getKey (.obj [("task_id", .str "t1"), ("status", .str "error"),
        ("response_timestamp", .str "2024-01-01T00:00:00+00:00")])
      "error_details").isNone = true :=
  ⟨rfl, rfl⟩

/-- C5 (amended): writing any **truthy** (non-empty) document with the
document writer and reading it back via fetch-full returns the document
structurally unchanged — including top-level keys unknown to the schema;
fetch-full drops no unrecognized keys. -/
theorem claim_C5_write_fetch_roundtrip (fields : List (String × Json))
    (htr : truthy (.obj fields) = true) :
    get_request_details (some (write_json_file (.obj fields)))
      = .ok (.obj fields) := by
  simp [get_request_details, write_json_file, read_json_file, htr]

/-- C5 witness: a document with an extra field unknown to the schema
round-trips unchanged. -/
theorem claim_C5_witness :
    get_request_details (some (write_json_file
      (.obj [("task_id", .str "t1"), ("status", .str "pending"),
        ("custom_extra", .arr [.num 1, .null])])))
      = .ok (.obj [("task_id", .str "t1"), ("status", .str "pending"),
          ("custom_extra", .arr [.num 1, .null])]) :=
  claim_C5_write_fetch_roundtrip
    [("task_id", .str "t1"), ("status", .str "pending"),
     ("custom_extra", .arr [.num 1, .null])] rfl

/-- C5 counterexample: the empty document `{}` is valid JSON and is written
fine, but fetch-full rejects it at the truthiness check instead of
returning it, so the round-trip fails for this document. -/
theorem claim_C5_counterexample :
    get_request_details (some (write_json_file (.obj [])))
      = .error .readParseFailed :=
  rfl

/-- C10: a request file whose content is syntactically valid JSON that
parses to a **falsy** value (e.g. `{}`) is rejected by summarize,
fetch-full, update-status and add-answer with the read/parse `ToolError`,
exactly as if it had failed to parse; only a truthy value proceeds. -/
theorem claim_C10_falsy_document_rejected (j : Json)
    (hf : truthy j = false) :
    get_request_summary (some (.parsed j)) = .error .readParseFailed ∧
    get_request_details (some (.parsed j)) = .error .readParseFailed ∧
    (∀ new_status error_message now,
      update_request_status (some (.parsed j)) new_status error_message now
        = .error .readParseFailed) ∧
    (∀ question_id answer now,
      add_answer_to_request (some (.parsed j)) question_id answer now
        = .error .readParseFailed) := by
  refine ⟨?_, ?_, ?_, ?_⟩
  · simp [get_request_summary, read_json_file, hf]
  · simp [get_request_details, read_json_file, hf]
  · intro new_status error_message now
    simp [update_request_status, read_json_file, hf]
  · intro question_id answer now
    simp [add_answer_to_request, read_json_file, hf]

/-- C10 witness: the empty object `{}` — well-formed JSON — is rejected by
all four per-file operations. -/
theorem claim_C10_witness :
    get_request_summary (some (.parsed (.obj []))) = .error .readParseFailed ∧
    get_request_details (some (.parsed (.obj []))) = .error .readParseFailed ∧
    (∀ new_status error_message now,
      update_request_status (some (.parsed (.obj []))) new_status
        error_message now = .error .readParseFailed) ∧
    (∀ question_id answer now,
      add_answer_to_request (some (.parsed (.obj []))) question_id answer now
        = .error .readParseFailed) :=
  claim_C10_falsy_document_rejected (.obj []) rfl

/-- C7 (amended): the only operation that ever writes `error_details` is
update-status, and it does so only while also setting `status = "error"`;
add-answer preserves the invariant "`error_details` present → `status` is
`"error"`", and update-status establishes it on any document that carries
no prior `error_details`.  (Update-status with a non-error status does
*not* clear a stale `error_details`, so preservation fails on documents
that already violate it or that carry `error_details` from an earlier error
— see the counterexample.) -/
theorem claim_C7_error_details_only_with_error_status :
    (∀ fields question_id answer now d,
      errorDetailsInvariant (.obj fields) →
      add_answer_to_request (some (.parsed (.obj fields))) question_id answer
        now = .ok d →
      errorDetailsInvariant d) ∧
    (∀ fields new_status error_message now d,
      Json.getKey (.obj fields) "error_details" = none →
      truthy (.obj fields) = true →
      update_request_status (some (.parsed (.obj fields))) new_status
        error_message now = .ok d →
      errorDetailsInvariant d) := by
  constructor
  · intro fields question_id answer now d hinv hok
    obtain ⟨qs, qs2, hq, hl, rfl⟩ :=
      add_answer_ok_shape fields question_id answer now d hok
    intro hsome
    have hed : (setKey (setKey fields "questions" (.arr qs2))
        "response_timestamp" (.str now)).lookup "error_details"
        = fields.lookup "error_details" := by
      rw [lookup_setKey_ne _ _ _ _ (by decide),
        lookup_setKey_ne _ _ _ _ (by decide)]
    have hst : (setKey (setKey fields "questions" (.arr qs2))
        "response_timestamp" (.str now)).lookup "status"
        = fields.lookup "status" := by
      rw [lookup_setKey_ne _ _ _ _ (by decide),
        lookup_setKey_ne _ _ _ _ (by decide)]
    simp only [Json.getKey, hed, hst] at hsome ⊢
    exact hinv hsome
  · intro fields new_status error_message now d hed htr hok
    obtain ⟨out, hok', hst, hrt, hset, hkeep, hother⟩ :=
      update_request_status_spec fields new_status error_message now htr
    rw [hok'] at hok
    cases hok
    intro hsome
    by_cases hcond : new_status = .errorStatus ∧ msgTruthy error_message = true
    · obtain ⟨hns, hmt⟩ := hcond
      subst hns
      simp only [Json.getKey]
      exact hst
    · have := hkeep hcond
      simp only [Json.getKey, this] at hsome
      simp only [Json.getKey] at hed
      rw [hed] at hsome
      simp at hsome

/-- C7 witness: add-answer on an invariant-satisfying document preserves
the invariant, and update-status on a document without prior
`error_details` establishes it. -/
theorem claim_C7_witness :
    errorDetailsInvariant
      (.obj (setKey (setKey
        [("status", Json.str "pending"),
         ("questions", Json.arr [.obj [("question_id", .str "q1")]])]
        "questions"
        (.arr [setAnswer (.obj [("question_id", .str "q1")]) (.num 1)]))
        "response_timestamp" (.str "TS1"))) ∧
    errorDetailsInvariant
      (.obj (setKey (setKey (setKey [("status", Json.str "pending")]
        "status" (.str "error")) "response_timestamp" (.str "TS1"))
        "error_details" (.str "boom"))) :=
  ⟨claim_C7_error_details_only_with_error_status.1
      [("status", Json.str "pending"),
       ("questions", Json.arr [.obj [("question_id", .str "q1")]])]
      "q1" (.num 1) "TS1" _ (fun h => nomatch h) rfl,
    claim_C7_error_details_only_with_error_status.2
      [("status", Json.str "pending")] .errorStatus (some "boom") "TS1" _
      rfl rfl rfl⟩

/-- C7 counterexample: the claim as frozen says **every** operation
preserves the predicate; but update-status to `"answered"` on a document
that legitimately satisfied the invariant (status `"error"` with
`error_details` present) leaves the stale `error_details` in place while
changing `status`, so the written document violates the predicate. -/
theorem claim_C7_counterexample :
    update_request_status
      (some (.parsed (.obj [("status", .str "error"),
        ("error_details", .str "boom")])))
      .answered none "2024-01-01T00:00:00+00:00"
      = .ok (.obj [("status", .str "answered"),
          ("error_details", .str "boom"),
          ("response_timestamp", .str "2024-01-01T00:00:00+00:00")]) ∧
    (Json.getKey (.obj [("status", .str "answered"),
        ("error_details", .str "boom"),
        ("response_timestamp", .str "2024-01-01T00:00:00+00:00")])
      "error_details").isSome = true ∧
    Json.getKey (.obj [("status", .str "answered"),
        ("error_details", .str "boom"),
        ("response_timestamp", .str "2024-01-01T00:00:00+00:00")])
      "status" = some (.str "answered") :=
  ⟨rfl, rfl, rfl⟩

/-- C9: no engine operation ever sets a document's status to `"pending"`:
the update-status input literal only admits the three terminal values, whose
string forms are never `"pending"`; update-status is honored mechanically on
a document in *any* prior status (no prior-status check), writing exactly
the requested value; and add-answer never modifies the status field. -/
theorem claim_C9_status_never_set_to_pending :
    (∀ new_status : NewStatus, new_status.toStr ≠ "pending") ∧
    (∀ fields new_status error_message now,
      truthy (.obj fields) = true →
      ∃ out, update_request_status (some (.parsed (.obj fields))) new_status
          error_message now = .ok (.obj out) ∧
        out.lookup "status" = some (.str new_status.toStr)) ∧
    (∀ fields question_id answer now d,
      add_answer_to_request (some (.parsed (.obj fields))) question_id answer
        now = .ok d →
      Json.getKey d "status" = Json.getKey (.obj fields) "status") := by
  refine ⟨?_, ?_, ?_⟩
  · intro new_status
    cases new_status <;> simp [NewStatus.toStr]
  · intro fields new_status error_message now htr
    obtain ⟨out, hok, hst, _⟩ :=
      update_request_status_spec fields new_status error_message now htr
    exact ⟨out, hok, hst⟩
  · intro fields question_id answer now d hok
    obtain ⟨qs, qs2, hq, hl, rfl⟩ :=
      add_answer_ok_shape fields question_id answer now d hok
    simp only [Json.getKey]
    rw [lookup_setKey_ne _ _ _ _ (by decide),
      lookup_setKey_ne _ _ _ _ (by decide)]

/-- C9 witness: updating a document that is already `"answered"` (a
terminal status) to `"partial"` is still honored mechanically, and an
add-answer success leaves the status field untouched. -/
theorem claim_C9_witness :
    (NewStatus.partialStatus.toStr ≠ "pending") ∧
    (∃ out, update_request_status
        (some (.parsed (.obj [("task_id", .str "t1"),
          ("status", .str "answered")])))
        .partialStatus none "2024-01-01T00:00:00+00:00" = .ok (.obj out) ∧
      out.lookup "status" = some (.str NewStatus.partialStatus.toStr)) ∧
    Json.getKey
      (.obj (setKey (setKey
        [("status", Json.str "pending"),
         ("questions", Json.arr [.obj [("question_id", .str "q1")]])]
        "questions"
        (.arr [setAnswer (.obj [("question_id", .str "q1")]) (.num 1)]))
        "response_timestamp" (.str "TS1"))) "status"
      = Json.getKey (.obj [("status", Json.str "pending"),
          ("questions", Json.arr [.obj [("question_id", .str "q1")]])])
          "status" :=
  ⟨claim_C9_status_never_set_to_pending.1 .partialStatus,
    claim_C9_status_never_set_to_pending.2.1
      [("task_id", .str "t1"), ("status", .str "answered")]
      .partialStatus none "2024-01-01T00:00:00+00:00" rfl,
    claim_C9_status_never_set_to_pending.2.2
      [("status", Json.str "pending"),
       ("questions", Json.arr [.obj [("question_id", .str "q1")]])]
      "q1" (.num 1) "TS1" _ rfl⟩

/-- C6: for every taskId and suffix, the sanitized filename computed by
create-associated-file contains no `/` or `\` characters and no leading
dot-sequence, is non-empty (an empty sanitized suffix is replaced by the
fixed default `_file`), and is deterministic: equal inputs always yield the
equal filename. -/
theorem claim_C6_sanitized_filename (task_id filename_suffix : String) :
    (∀ c ∈ (create_associated_filename task_id filename_suffix).data,
      c ≠ '/' ∧ c ≠ '\\') ∧
    (∀ c, (create_associated_filename task_id filename_suffix).data.head?
      = some c → c ≠ '.') ∧
    create_associated_filename task_id filename_suffix ≠ "" ∧
    (∀ t2 s2, t2 = task_id → s2 = filename_suffix →
      create_associated_filename t2 s2
        = create_associated_filename task_id filename_suffix) := by
  have hdata : (create_associated_filename task_id filename_suffix).data
      = (safe_task_id task_id).data ++ (safe_suffix filename_suffix).data :=
    rfl
  refine ⟨?_, ?_, ?_, ?_⟩
  · intro c hc
    rw [hdata] at hc
    rcases List.mem_append.mp hc with h | h
    · exact isSafeTaskChar_no_sep (mem_safe_task_id _ _ h)
    · exact isSafeSuffixChar_no_sep (mem_safe_suffix _ _ h)
  · intro c hh
    rw [hdata] at hh
    cases hT : (safe_task_id task_id).data with
    | nil =>
        rw [hT, List.nil_append] at hh
        have := head_safe_suffix_not_stripped _ _ hh
        intro he
        subst he
        exact absurd this (by decide)
    | cons a l =>
        rw [hT] at hh
        have hac : a = c := Option.some.inj (by simpa using hh)
        subst hac
        have hmem : a ∈ (safe_task_id task_id).data := by
          rw [hT]
          exact List.mem_cons_self a l
        have := mem_safe_task_id _ _ hmem
        intro he
        subst he
        exact absurd this (by decide)
  · intro he
    have : (create_associated_filename task_id filename_suffix).data = [] :=
      congrArg String.data he
    rw [hdata] at this
    exact safe_suffix_ne_nil filename_suffix (List.append_eq_nil.mp this).2
  · intro t2 s2 h1 h2
    rw [h1, h2]

/-- C6 witness: the spec §8 sanitization test inputs
`("task/../1", "../../x.md")`. -/
theorem claim_C6_witness :
    (∀ c ∈ (create_associated_filename "task/../1" "../../x.md").data,
      c ≠ '/' ∧ c ≠ '\\') ∧
    (∀ c, (create_associated_filename "task/../1" "../../x.md").data.head?
      = some c → c ≠ '.') ∧
    create_associated_filename "task/../1" "../../x.md" ≠ "" ∧
    (∀ t2 s2, t2 = "task/../1" → s2 = "../../x.md" →
      create_associated_filename t2 s2
        = create_associated_filename "task/../1" "../../x.md") :=
  claim_C6_sanitized_filename "task/../1" "../../x.md"

/-- C2 (amended): for every directory state in which each `*.json` regular
file either fails to open/parse, or parses to a falsy value, or parses to a
dict, scan-for-pending returns exactly the names of the `*.json` regular
files whose parsed `status` field equals `"pending"`, in directory order;
malformed files are skipped and do not make the scan fail.  (The amendment
excludes files parsing to a *truthy non-dict* value: such a file aborts the
whole scan with a `ToolError` — see the counterexample.) -/
theorem claim_C2_scan_returns_pending (dir : List DirEntry)
    (hok : dir.all scanEntryOk = true) :
    check_for_new_requests dir
      = .ok ((dir.filter isPendingFile).map DirEntry.name) := by
  induction dir with
  | nil => rfl
  | cons e rest ih =>
      simp only [List.all_cons, Bool.and_eq_true] at hok
      obtain ⟨he, hrest⟩ := hok
      have ihr := ih hrest
      by_cases hj : (matchesGlobJson e.name && e.is_file) = true
      · cases hc : e.content with
        | malformed =>
            have hp : isPendingFile e = false := by
              simp [isPendingFile, hc]
            simp [check_for_new_requests, hj, hc, List.filter_cons, hp, ihr]
        | parsed j =>
            cases htr : truthy j with
            | false =>
                have hp : isPendingFile e = false := by
                  simp [isPendingFile, hc, htr]
                simp [check_for_new_requests, hj, hc, htr, List.filter_cons,
                  hp, ihr]
            | true =>
                cases j with
                | obj fields =>
                    cases hs : fields.lookup "status" with
                    | none =>
                        have hp : isPendingFile e = false := by
                          simp [isPendingFile, hc, htr, pendingStatus, hs]
                        simp [check_for_new_requests, hj, hc, htr, hs,
                          List.filter_cons, hp, ihr]
                    | some v =>
                        cases v with
                        | str s =>
                            by_cases hpend : s = "pending"
                            · subst hpend
                              have hp : isPendingFile e = true := by
                                simp [isPendingFile, hc, htr, pendingStatus,
                                  hs, hj]
                              simp [check_for_new_requests, hj, hc, htr, hs,
                                List.filter_cons, hp, ihr, Except.map]
                            · have hp : isPendingFile e = false := by
                                simp [isPendingFile, hc, htr, pendingStatus,
                                  hs, hpend]
                              simp [check_for_new_requests, hj, hc, htr, hs,
                                List.filter_cons, hp, hpend, ihr]
                        | null =>
                            have hp : isPendingFile e = false := by
                              simp [isPendingFile, hc, htr, pendingStatus, hs]
                            simp [check_for_new_requests, hj, hc, htr, hs,
                              List.filter_cons, hp, ihr]
                        | bool b =>
                            have hp : isPendingFile e = false := by
                              simp [isPendingFile, hc, htr, pendingStatus, hs]
                            simp [check_for_new_requests, hj, hc, htr, hs,
                              List.filter_cons, hp, ihr]
                        | num n =>
                            have hp : isPendingFile e = false := by
                              simp [isPendingFile, hc, htr, pendingStatus, hs]
                            simp [check_for_new_requests, hj, hc, htr, hs,
                              List.filter_cons, hp, ihr]
                        | arr elems =>
                            have hp : isPendingFile e = false := by
                              simp [isPendingFile, hc, htr, pendingStatus, hs]
                            simp [check_for_new_requests, hj, hc, htr, hs,
                              List.filter_cons, hp, ihr]
                        | obj g =>
                            have hp : isPendingFile e = false := by
                              simp [isPendingFile, hc, htr, pendingStatus, hs]
                            simp [check_for_new_requests, hj, hc, htr, hs,
                              List.filter_cons, hp, ihr]
                | null => simp [truthy] at htr
                | bool b => simp [scanEntryOk, hj, hc, htr] at he
                | num n => simp [scanEntryOk, hj, hc, htr] at he
                | str s => simp [scanEntryOk, hj, hc, htr] at he
                | arr elems => simp [scanEntryOk, hj, hc, htr] at he
      · have hj' : (matchesGlobJson e.name && e.is_file) = false := by
          simpa using hj
        have hp : isPendingFile e = false := by
          simp [isPendingFile, hj']
        simp [check_for_new_requests, hj', List.filter_cons, hp, ihr]

/-- C2 witness: a directory with a pending request, an answered request, a
malformed JSON file and a non-JSON file: the scan returns exactly the
pending file's name and does not fail because of the malformed file. -/
theorem claim_C2_witness :
    check_for_new_requests
      [⟨"t1.json", true, .parsed (.obj [("task_id", .str "t1"),
          ("status", .str "pending")])⟩,
       ⟨"t2.json", true, .parsed (.obj [("task_id", .str "t2"),
          ("status", .str "answered")])⟩,
       ⟨"bad.json", true, .malformed⟩,
       ⟨"notes.txt", true, .parsed (.obj [("status", .str "pending")])⟩]
      = .ok ((([⟨"t1.json", true, .parsed (.obj [("task_id", .str "t1"),
            ("status", .str "pending")])⟩,
          ⟨"t2.json", true, .parsed (.obj [("task_id", .str "t2"),
            ("status", .str "answered")])⟩,
          ⟨"bad.json", true, .malformed⟩,
          ⟨"notes.txt", true, .parsed (.obj [("status", .str "pending")])⟩]
          : List DirEntry).filter isPendingFile).map DirEntry.name) ∧
    ((([⟨"t1.json", true, .parsed (.obj [("task_id", .str "t1"),
          ("status", .str "pending")])⟩,
        ⟨"t2.json", true, .parsed (.obj [("task_id", .str "t2"),
          ("status", .str "answered")])⟩,
        ⟨"bad.json", true, .malformed⟩,
        ⟨"notes.txt", true, .parsed (.obj [("status", .str "pending")])⟩]
        : List DirEntry).filter isPendingFile).map DirEntry.name)
      = ["t1.json"] :=
  ⟨claim_C2_scan_returns_pending
    [⟨"t1.json", true, .parsed (.obj [("task_id", .str "t1"),
        ("status", .str "pending")])⟩,
     ⟨"t2.json", true, .parsed (.obj [("task_id", .str "t2"),
        ("status", .str "answered")])⟩,
     ⟨"bad.json", true, .malformed⟩,
     ⟨"notes.txt", true, .parsed (.obj [("status", .str "pending")])⟩]
    rfl, rfl⟩

/-- C2 counterexample: a single `*.json` file containing `[1]` — valid JSON
with no `status` field.  The claim as frozen says the scan returns exactly
the pending files (here: none) and only open/parse failures are skipped;
but the code's `data.get("status")` raises `AttributeError` on the truthy
non-dict value, aborting the whole scan with a `ToolError`. -/
theorem claim_C2_counterexample :
    check_for_new_requests [⟨"a.json", true, .parsed (.arr [.num 1])⟩]
      = .error .scanFailed ∧
    ([(⟨"a.json", true, .parsed (.arr [.num 1])⟩ : DirEntry)].filter
      isPendingFile).map DirEntry.name = [] :=
  ⟨rfl, rfl⟩

/-- C3 (amended): summarize on a readable document returns only the keys
`task_id`, `questions` and `desired_output`; `questions` is bound to the
list of `{question_id, text}` projections of the well-formed (dict)
question entries; `task_id` and `desired_output` are omitted exactly when
absent from (or bound to `null` in) the source document.  (The amendment:
the `questions` key is **always** present — the projection produces a list,
which is never `None`, so the `v is not None` filter keeps it even when the
source document has no `questions` key at all — see the counterexample.) -/
theorem claim_C3_summary_sparse_projection
    (fields : List (String × Json)) (qdicts : List (List (String × Json)))
    (htr : truthy (.obj fields) = true)
    (hit : iterDicts (questionsOrEmpty fields) = some qdicts) :
    ∃ out,
      get_request_summary (some (.parsed (.obj fields))) = .ok (.obj out) ∧
      (∀ p ∈ out,
        p.1 = "task_id" ∨ p.1 = "questions" ∨ p.1 = "desired_output") ∧
      out.lookup "questions" = some (.arr (qdicts.map projQuestion)) ∧
      (out.lookup "task_id" = if (pyGet fields "task_id").isNull then none
        else some (pyGet fields "task_id")) ∧
      (out.lookup "desired_output"
        = if (pyGet fields "desired_output").isNull then none
          else some (pyGet fields "desired_output")) := by
  refine ⟨([("task_id", pyGet fields "task_id"),
      ("questions", .arr (qdicts.map projQuestion)),
      ("desired_output", pyGet fields "desired_output")]).filter
      (fun p => !(p.2.isNull)), ?_, ?_, ?_, ?_, ?_⟩
  · simp [get_request_summary, read_json_file, htr, hit]
  · intro p hp
    have h1 := (List.mem_filter.mp hp).1
    simp only [List.mem_cons, List.not_mem_nil, or_false] at h1
    rcases h1 with rfl | rfl | rfl
    · exact Or.inl rfl
    · exact Or.inr (Or.inl rfl)
    · exact Or.inr (Or.inr rfl)
  · have ha : (Json.arr (qdicts.map projQuestion)).isNull = false := rfl
    cases ht : (pyGet fields "task_id").isNull <;>
      cases hd : (pyGet fields "desired_output").isNull <;>
      simp [List.filter_cons, ht, hd, ha, List.lookup]
  · have ha : (Json.arr (qdicts.map projQuestion)).isNull = false := rfl
    cases ht : (pyGet fields "task_id").isNull <;>
      cases hd : (pyGet fields "desired_output").isNull <;>
      simp [List.filter_cons, ht, hd, ha, List.lookup]
  · have ha : (Json.arr (qdicts.map projQuestion)).isNull = false := rfl
    cases ht : (pyGet fields "task_id").isNull <;>
      cases hd : (pyGet fields "desired_output").isNull <;>
      simp [List.filter_cons, ht, hd, ha, List.lookup]

/-- C3 witness: a full document with one well-formed question entry and one
malformed (non-dict) entry: the summary keeps the three keys, projects the
well-formed entry and silently skips the malformed one. -/
theorem claim_C3_witness :
    ∃ out,
      get_request_summary (some (.parsed (.obj [("task_id", .str "t1"),
        ("status", .str "pending"),
        ("questions", .arr [.obj [("question_id", .str "q1"),
          ("text", .str "Why"), ("extra", .num 7)], .num 5]),
        ("desired_output", .str "markdown")])))
        = .ok (.obj out) ∧
      (∀ p ∈ out,
        p.1 = "task_id" ∨ p.1 = "questions" ∨ p.1 = "desired_output") ∧
      out.lookup "questions" = some (.arr (([[("question_id", Json.str "q1"),
        ("text", Json.str "Why"), ("extra", Json.num 7)]]).map
          projQuestion)) ∧
      (out.lookup "task_id"
        = if (pyGet [("task_id", Json.str "t1"), ("status", Json.str "pending"),
            ("questions", Json.arr [.obj [("question_id", .str "q1"),
              ("text", .str "Why"), ("extra", .num 7)], .num 5]),
            ("desired_output", Json.str "markdown")] "task_id").isNull
          then none
          else some (pyGet [("task_id", Json.str "t1"),
            ("status", Json.str "pending"),
            ("questions", Json.arr [.obj [("question_id", .str "q1"),
              ("text", .str "Why"), ("extra", .num 7)], .num 5]),
            ("desired_output", Json.str "markdown")] "task_id")) ∧
      (out.lookup "desired_output"
        = if (pyGet [("task_id", Json.str "t1"), ("status", Json.str "pending"),
            ("questions", Json.arr [.obj [("question_id", .str "q1"),
              ("text", .str "Why"), ("extra", .num 7)], .num 5]),
            ("desired_output", Json.str "markdown")] "desired_output").isNull
          then none
          else some (pyGet [("task_id", Json.str "t1"),
            ("status", Json.str "pending"),
            ("questions", Json.arr [.obj [("question_id", .str "q1"),
              ("text", .str "Why"), ("extra", .num 7)], .num 5]),
            ("desired_output", Json.str "markdown")] "desired_output")) :=
  claim_C3_summary_sparse_projection
    [("task_id", .str "t1"), ("status", .str "pending"),
     ("questions", .arr [.obj [("question_id", .str "q1"),
       ("text", .str "Why"), ("extra", .num 7)], .num 5]),
     ("desired_output", .str "markdown")]
    [[("question_id", Json.str "q1"), ("text", Json.str "Why"),
      ("extra", Json.num 7)]]
    rfl rfl

/-- C3 counterexample: a truthy document with **no** `questions` key.  The
claim as frozen says any of the three top-level keys absent from the source
is omitted entirely from the result; but the summary still contains
`"questions"` bound to the empty list, because the list built by the
comprehension is never `None` and so survives the `v is not None` filter. -/
theorem claim_C3_counterexample :
    get_request_summary (some (.parsed (.obj [("task_id", .str "t1")])))
      = .ok (.obj [("task_id", .str "t1"), ("questions", .arr [])]) ∧
    (Json.getKey (.obj [("task_id", .str "t1")]) "questions").isNone
      = true ∧
    (Json.getKey (.obj [("task_id", .str "t1"), ("questions", .arr [])])
      "questions").isSome = true :=
  ⟨rfl, rfl, rfl⟩

